import Mathlib

/-!
Verification of the system-monitor simulator and its keyword-routed chat
responder.  JavaScript numbers are modelled as rationals (`ℚ`), JS strings as
Lean `String`/`List Char`, and each call of `Math.random()` as an explicitly
supplied rational draw, so that a universally quantified theorem covers every
possible sequence of random draws.  Fallible operations return `Option`.
-/

namespace OsMon

/-- Monitoring section of the configuration (`CONFIG.MONITORING`). -/
structure MonitoringConfig where
  updateInterval : ℚ
  alertThresholdCpu : ℚ
  alertThresholdMemory : ℚ
  maxProcessesDisplay : ℕ
deriving DecidableEq

/-- System section of the configuration (`CONFIG.SYSTEM`). -/
structure SystemConfig where
  cpuCores : ℕ
  cpuFrequency : ℚ
  totalMemory : ℚ
  diskSize : ℚ
deriving DecidableEq

/-- The configuration object (`CONFIG` in `config.js`), with the process-name
catalog. -/
structure Config where
  monitoring : MonitoringConfig
  system : SystemConfig
  processNames : List String
deriving DecidableEq

/-- The shipped, frozen configuration from `config.js`. -/
def CONFIG : Config :=
  { monitoring :=
      { updateInterval := 2000
        alertThresholdCpu := 85
        alertThresholdMemory := 85
        maxProcessesDisplay := 8 }
    system :=
      { cpuCores := 8
        cpuFrequency := 3.5
        totalMemory := 16
        diskSize := 512 }
    processNames :=
      ["chrome.exe", "code.exe", "node.exe", "python.exe", "explorer.exe",
       "firefox.exe", "docker.exe", "postgres.exe", "mysql.exe", "nginx.exe",
       "java.exe", "teams.exe", "slack.exe", "spotify.exe", "system"] }

/-- One entry of the simulated process table (`generateProcesses` element). -/
structure ProcessInfo where
  name : String
  pid : ℤ
  cpu : ℚ
  memory : ℚ
  status : String
  state : String
deriving DecidableEq

/-- `this.metrics.cpu`. -/
structure CpuMetrics where
  usage : ℚ
  cores : ℕ
  frequency : ℚ
deriving DecidableEq

/-- `this.metrics.memory`. -/
structure MemoryMetrics where
  used : ℚ
  total : ℚ
  available : ℚ
deriving DecidableEq

/-- `this.metrics.disk`. -/
structure DiskMetrics where
  read : ℚ
  write : ℚ
  usage : ℚ
deriving DecidableEq

/-- `this.metrics.network`. -/
structure NetworkMetrics where
  sent : ℚ
  received : ℚ
deriving DecidableEq

/-- The full metrics snapshot owned by `SystemMonitor`. -/
structure Metrics where
  cpu : CpuMetrics
  memory : MemoryMetrics
  disk : DiskMetrics
  network : NetworkMetrics
  processes : List ProcessInfo
deriving DecidableEq

/-- The seed state written by the `SystemMonitor` constructor. -/
def initialMetrics (cfg : Config) : Metrics :=
  { cpu := { usage := 35, cores := cfg.system.cpuCores, frequency := cfg.system.cpuFrequency }
    memory := { used := 8.5, total := cfg.system.totalMemory,
                available := cfg.system.totalMemory - 8.5 }
    disk := { read := 0, write := 0, usage := 45 }
    network := { sent := 0, received := 0 }
    processes := [] }

/-- The `SystemMonitor` constructor.  JS constructors can in principle throw,
so construction is modelled as `Option`; the source constructor only assigns
the seed metrics and never throws or checks anything, hence always `some`. -/
def mkSystemMonitor (cfg : Config) : Option Metrics :=
  some (initialMetrics cfg)

/-- The random draws consumed when generating one process-table entry.
`statusDraw2` is the second `Math.random()` call of the status ternary; the
source only evaluates it when `statusDraw1 ≤ 0.8`, which providing an unused
draw models faithfully. -/
structure ProcessDraws where
  pidDraw : ℚ
  cpuDraw : ℚ
  memDraw : ℚ
  statusDraw1 : ℚ
  statusDraw2 : ℚ
  stateDraw : ℚ
deriving DecidableEq

/-- JS array indexing `l[i]`: out-of-range access yields `undefined`. -/
def jsIndex (l : List String) (i : ℤ) : String :=
  if h : 0 ≤ i ∧ i.toNat < l.length then l.get ⟨i.toNat, h.2⟩ else "undefined"

/-- `getRandomProcessState`: `states[Math.floor(d * states.length)]`. -/
def getRandomProcessState (d : ℚ) : String :=
  jsIndex ["running", "ready", "waiting", "sleeping"] ⌊d * 4⌋

/-- One element built by the `map` callback inside `generateProcesses`. -/
def mkProcess (name : String) (d : ProcessDraws) : ProcessInfo :=
  { name := name
    pid := 1000 + ⌊d.pidDraw * 9000⌋
    cpu := d.cpuDraw * 25
    memory := d.memDraw * 1024
    status :=
      if d.statusDraw1 > 0.8 then "high"
      else if d.statusDraw2 > 0.5 then "medium" else "low"
    state := getRandomProcessState d.stateDraw }

/-- The ordering realised by `sort((a, b) => b.cpu - a.cpu)`: `a` may stay
before `b` exactly when `b.cpu ≤ a.cpu` (descending by cpu). -/
def cpuOrder (a b : ProcessInfo) : Prop :=
  b.cpu ≤ a.cpu

instance : DecidableRel cpuOrder :=
  fun a b => inferInstanceAs (Decidable (b.cpu ≤ a.cpu))

instance : IsTotal ProcessInfo cpuOrder :=
  ⟨fun a b => le_total b.cpu a.cpu⟩

instance : IsTrans ProcessInfo cpuOrder :=
  ⟨fun _ _ _ hab hbc => le_trans hbc hab⟩

/-- `generateProcesses`: one fresh entry per catalog name (entry `i` consumes
the draw record `pd i`), sorted descending by cpu, truncated to
`MAX_PROCESSES_DISPLAY`.  JS `Array.prototype.sort` is a stable sort and the
stable sort of a list under a total preorder is unique, so it is rendered by
the stable `insertionSort`. -/
def generateProcesses (cfg : Config) (pd : ℕ → ProcessDraws) : List ProcessInfo :=
  (List.insertionSort cpuOrder
    (cfg.processNames.enum.map (fun p => mkProcess p.2 (pd p.1)))).take
    cfg.monitoring.maxProcessesDisplay

/-- The random draws consumed by one `updateMetrics` call. -/
structure TickDraws where
  cpuDraw : ℚ
  memDraw : ℚ
  diskReadDraw : ℚ
  diskWriteDraw : ℚ
  netSentDraw : ℚ
  netRecvDraw : ℚ
  procDraws : ℕ → ProcessDraws

/-- `updateMetrics` (one `tick()`), with every `Math.random()` made explicit. -/
def updateMetrics (cfg : Config) (m : Metrics) (d : TickDraws) : Metrics :=
  let cpuUsage := max 5 (min 95 (m.cpu.usage + (d.cpuDraw - 0.5) * 10))
  let memUsed := max 2 (min 14 (m.memory.used + (d.memDraw - 0.5) * 0.5))
  { cpu := { m.cpu with usage := cpuUsage }
    memory := { used := memUsed, total := m.memory.total,
                available := m.memory.total - memUsed }
    disk := { read := d.diskReadDraw * 150, write := d.diskWriteDraw * 100,
              usage := m.disk.usage }
    network := { sent := d.netSentDraw * 500, received := d.netRecvDraw * 800 }
    processes := generateProcesses cfg d.procDraws }

/-- Iterated ticks: `runTicks cfg m [d1, d2, ...]` applies `updateMetrics`
once per element, in order. -/
def runTicks (cfg : Config) (m : Metrics) : List TickDraws → Metrics
  | [] => m
  | d :: ds => runTicks cfg (updateMetrics cfg m d) ds

/-- One alert object pushed by `checkAlerts`. -/
structure AlertEvent where
  type : String
  severity : String
  message : String
deriving DecidableEq

/-- The cpu alert object from `checkAlerts`. -/
def cpuAlert : AlertEvent :=
  { type := "cpu", severity := "high"
    message := "⚠️ High CPU usage detected! Consider closing unnecessary applications." }

/-- The memory alert object from `checkAlerts`. -/
def memoryAlert : AlertEvent :=
  { type := "memory", severity := "high"
    message := "⚠️ Memory usage is critically high! System may slow down." }

/-- `checkAlerts`: push the cpu alert, then the memory alert, each under its
threshold condition. -/
def checkAlerts (cfg : Config) (m : Metrics) : List AlertEvent :=
  (if m.cpu.usage > cfg.monitoring.alertThresholdCpu then [cpuAlert] else []) ++
  (if (m.memory.used / m.memory.total) * 100 > cfg.monitoring.alertThresholdMemory then
    [memoryAlert] else [])

/-- `getProcessByPID`: `Array.prototype.find` returns the first match or
`undefined`, modelled as `Option`. -/
def getProcessByPID (m : Metrics) (pid : ℤ) : Option ProcessInfo :=
  m.processes.find? (fun p => p.pid == pid)

/-- `getContextSwitches`: `Math.floor(cpu.usage * 100)`. -/
def getContextSwitches (m : Metrics) : ℤ :=
  ⌊m.cpu.usage * 100⌋

/-- `userMessage.toLowerCase()`, as the character list used for matching. -/
def lowerChars (s : String) : List Char :=
  s.data.map Char.toLower

/-- Whether the first list is an initial segment of the second. -/
def beginsWith : List Char → List Char → Bool
  | [], _ => true
  | _ :: _, [] => false
  | p :: ps, c :: cs => p == c && beginsWith ps cs

/-- Whether `pat` occurs contiguously somewhere in the second list
(JS `String.prototype.includes`). -/
def containsSeq (pat : List Char) : List Char → Bool
  | [] => beginsWith pat []
  | c :: cs => beginsWith pat (c :: cs) || containsSeq pat cs

/-- `lowerMessage.includes(pat)` on the lowercased character list. -/
def incl (lm : List Char) (pat : String) : Bool :=
  containsSeq pat.data lm

/-- `s.includes(pat)` for plain strings. -/
def strContains (s pat : String) : Bool :=
  containsSeq pat.data s.data

/-- Decimal digits of `n`, left-padded with zeros to the given width. -/
def natPad (n : ℕ) (width : ℕ) : String :=
  let s := toString n
  String.mk (List.replicate (width - s.length) '0') ++ s

/-- `Number.prototype.toFixed(d)`: round to `d` digits (ties upward for the
nonnegative values produced here) and render with exactly `d` decimals. -/
def toFixed (d : ℕ) (q : ℚ) : String :=
  let n : ℤ := ⌊q * (10 : ℚ) ^ d + 1 / 2⌋
  if d = 0 then toString n
  else
    (if n < 0 then "-" else "") ++ toString (n.natAbs / 10 ^ d) ++ "." ++
      natPad (n.natAbs % 10 ^ d) d

/-- The rounded numeric value behind `toFixed` (used where the source compares
the `toFixed` string against a number, which JS coerces back to a number). -/
def toFixedVal (d : ℕ) (q : ℚ) : ℚ :=
  (⌊q * (10 : ℚ) ^ d + 1 / 2⌋ : ℚ) / (10 : ℚ) ^ d

/-- Fuelled search for the least number of decimal digits representing `q`
exactly. -/
def decDigitsAux : ℕ → ℚ → Option ℕ
  | 0, q => if q.den = 1 then some 0 else none
  | k + 1, q => if q.den = 1 then some 0 else (decDigitsAux k (q * 10)).map (· + 1)

/-- Default JS rendering of a number in template interpolation (`${x}`):
shortest plain decimal form, sufficient for the finite-decimal snapshot
values interpolated without `toFixed`. -/
def jsNumStr (q : ℚ) : String :=
  match decDigitsAux 30 q with
  | some d => toFixed d q
  | none => toFixed 30 q

/-- An apostrophe, kept out of string literals. -/
def apos : String :=
  (Char.ofNat 39).toString

/-- CPU live-status template (secondary keywords `usage`/`current`). -/
def cpuStatusTemplate (m : Metrics) : String :=
  "🔍 <strong>Current CPU Status:</strong><br><br>\n                    • Usage: <strong>" ++
    toFixed 1 m.cpu.usage ++ "%</strong><br>\n                    • Cores: " ++
    toString m.cpu.cores ++ " logical processors<br>\n                    • Frequency: " ++
    jsNumStr m.cpu.frequency ++ " GHz<br><br>\n                    " ++
    (if m.cpu.usage > 70 then "⚠️ CPU usage is high. " else "✅ CPU usage is normal. ") ++
    "\n                    <br><br><strong>OS Theory:</strong> The CPU scheduler uses algorithms like Round-Robin and Priority Scheduling to allocate processor time to processes. Context switches occur approximately " ++
    toString (getContextSwitches m) ++ " times per second at this load level."

/-- CPU theory template (secondary keywords `explain`/`what is`). -/
def cpuTheoryTemplate (m : Metrics) : String :=
  "📚 <strong>CPU & Process Management:</strong><br><br>\n                    The CPU is managed by the OS kernel" ++
    apos ++
    "s scheduler, which:<br>\n                    • Allocates time slices to processes (time-sharing)<br>\n                    • Handles context switching between processes<br>\n                    • Manages process states (Ready, Running, Waiting, Terminated)<br>\n                    • Uses scheduling algorithms (FCFS, SJF, Round-Robin, Priority)<br><br>\n                    <strong>Your System:</strong> With " ++
    toString m.cpu.cores ++ " cores, the OS can run " ++ toString m.cpu.cores ++
    " processes truly simultaneously using parallel processing."

/-- Memory live-status template.  The source compares the `toFixed(1)` string
`memPercent` against `80`, which JS coerces back to the rounded number. -/
def memoryStatusTemplate (m : Metrics) : String :=
  let memPercentQ := (m.memory.used / m.memory.total) * 100
  "💾 <strong>Memory Status:</strong><br><br>\n                    • Used: <strong>" ++
    toFixed 2 m.memory.used ++ " GB</strong> (" ++ toFixed 1 memPercentQ ++
    "%)<br>\n                    • Available: " ++ toFixed 2 m.memory.available ++
    " GB<br>\n                    • Total: " ++ jsNumStr m.memory.total ++
    " GB<br><br>\n                    " ++
    (if toFixedVal 1 memPercentQ > 80 then "⚠️ Memory pressure detected! "
     else "✅ Memory levels are healthy. ") ++
    "\n                    <br><br><strong>OS Theory:</strong> The OS uses virtual memory management with paging. Your system likely uses a page size of 4KB, and the Memory Management Unit (MMU) handles address translation from virtual to physical addresses."

/-- Memory theory template (secondary keywords `virtual`/`explain`). -/
def memoryTheoryTemplate : String :=
  "📚 <strong>Virtual Memory Management:</strong><br><br>\n                    Virtual memory is a memory management technique where:<br>\n                    • Each process has its own virtual address space<br>\n                    • The OS maps virtual addresses to physical RAM<br>\n                    • Pages can be swapped to disk when RAM is full<br>\n                    • Provides memory isolation between processes<br><br>\n                    <strong>Benefits:</strong><br>\n                    • Programs can use more memory than physically available<br>\n                    • Security through process isolation<br>\n                    • Efficient memory utilization through demand paging"

/-- One line appended by the `forEach` in the top-processes response. -/
def processLine (i : ℕ) (p : ProcessInfo) : String :=
  toString (i + 1) ++ ". <strong>" ++ p.name ++
    "</strong><br>\n                        &nbsp;&nbsp;&nbsp;PID: " ++ toString p.pid ++
    " | CPU: " ++ toFixed 1 p.cpu ++ "% | Memory: " ++ toFixed 0 p.memory ++ " MB<br>"

/-- Top resource-consuming processes template (`processes.slice(0, 5)`). -/
def processTopTemplate (m : Metrics) : String :=
  "🔝 <strong>Top Resource-Consuming Processes:</strong><br><br>" ++
    String.join ((m.processes.take 5).enum.map (fun p => processLine p.1 p.2)) ++
    "<br><strong>OS Theory:</strong> Each process has a Process Control Block (PCB) containing its state, program counter, CPU registers, memory allocation, and I/O status. The OS maintains these in a process table."

/-- Process theory template (secondary keywords `explain`/`what is`). -/
def processTheoryTemplate (m : Metrics) : String :=
  "📚 <strong>Process Management:</strong><br><br>\n                    A process is a program in execution. The OS manages processes through:<br>\n                    • <strong>Process Creation:</strong> fork() and exec() system calls<br>\n                    • <strong>Process Scheduling:</strong> Deciding which process runs when<br>\n                    • <strong>Inter-Process Communication (IPC):</strong> Pipes, message queues, shared memory<br>\n                    • <strong>Process Synchronization:</strong> Semaphores, mutexes, monitors<br><br>\n                    Currently, your system is managing " ++
    toString m.processes.length ++ "+ active processes."

/-- Disk I/O status template. -/
def diskTemplate (m : Metrics) : String :=
  let diskTotal := m.disk.read + m.disk.write
  "💿 <strong>Disk I/O Status:</strong><br><br>\n                • Read Speed: " ++
    toFixed 1 m.disk.read ++ " MB/s<br>\n                • Write Speed: " ++
    toFixed 1 m.disk.write ++ " MB/s<br>\n                • Total Activity: " ++
    toFixed 1 diskTotal ++ " MB/s<br>\n                • Disk Usage: " ++
    jsNumStr m.disk.usage ++
    "%<br><br>\n                <strong>OS Theory:</strong> The I/O subsystem uses buffering, caching, and scheduling algorithms (like SCAN or C-LOOK) to optimize disk operations. Device drivers abstract hardware details, and the file system manages data organization on disk."

/-- Network activity template. -/
def networkTemplate (m : Metrics) : String :=
  let networkTotal := m.network.sent + m.network.received
  "🌐 <strong>Network Activity:</strong><br><br>\n                • Upload: " ++
    toFixed 0 m.network.sent ++ " KB/s<br>\n                • Download: " ++
    toFixed 0 m.network.received ++ " KB/s<br>\n                • Total: " ++
    toFixed 0 networkTotal ++
    " KB/s<br><br>\n                <strong>OS Theory:</strong> The OS network stack implements the TCP/IP protocol suite, handling packet routing, socket management, and network device drivers. System calls like socket(), bind(), listen(), and accept() enable network communication."

/-- Optimization recommendations template, with its two conditional lines. -/
def optimizeTemplate (m : Metrics) : String :=
  "💡 <strong>Optimization Recommendations:</strong><br><br>" ++
    (if m.cpu.usage > 70 then
      "• <strong>CPU:</strong> High usage detected. Close unnecessary applications or consider upgrading to a faster processor.<br>"
     else "") ++
    (if m.memory.used / m.memory.total > 0.7 then
      "• <strong>Memory:</strong> Consider closing browser tabs or adding more RAM. Enable virtual memory if not already active.<br>"
     else "") ++
    "• <strong>General:</strong> Keep only essential startup programs, update drivers regularly, and run disk cleanup.<br><br>\n                <strong>OS Theory:</strong> Modern operating systems use dynamic priority adjustment and load balancing to optimize performance automatically."

/-- CPU scheduling algorithms template (fixed text). -/
def schedulingTemplate : String :=
  "📚 <strong>CPU Scheduling Algorithms:</strong><br><br>\n                • <strong>FCFS (First-Come-First-Serve):</strong> Simple but can cause convoy effect<br>\n                • <strong>SJF (Shortest Job First):</strong> Optimal average waiting time<br>\n                • <strong>Round-Robin:</strong> Fair time-sharing with time quantum<br>\n                • <strong>Priority Scheduling:</strong> Based on process priority<br>\n                • <strong>Multilevel Queue:</strong> Different queues for different process types<br><br>\n                Most modern OS use a combination of these algorithms for optimal performance."

/-- Deadlock template (fixed text). -/
def deadlockTemplate : String :=
  "📚 <strong>Deadlock in OS:</strong><br><br>\n                Deadlock occurs when processes wait indefinitely. Four conditions must hold:<br>\n                • <strong>Mutual Exclusion:</strong> Resources cannot be shared<br>\n                • <strong>Hold and Wait:</strong> Process holding resources requests more<br>\n                • <strong>No Preemption:</strong> Resources cannot be forcibly taken<br>\n                • <strong>Circular Wait:</strong> Circular chain of processes waiting<br><br>\n                <strong>Prevention:</strong> Break any one of these conditions<br>\n                <strong>Detection:</strong> Use resource allocation graphs<br>\n                <strong>Recovery:</strong> Process termination or resource preemption"

/-- File system template (fixed text). -/
def fileSystemTemplate : String :=
  "📚 <strong>File System Management:</strong><br><br>\n                File systems organize data on storage devices:<br>\n                • <strong>Structure:</strong> Directories (folders) and files<br>\n                • <strong>Allocation Methods:</strong> Contiguous, Linked, Indexed<br>\n                • <strong>Common Types:</strong> NTFS (Windows), ext4 (Linux), APFS (macOS)<br>\n                • <strong>Operations:</strong> Create, Read, Write, Delete, Seek<br><br>\n                The file system maintains metadata (permissions, timestamps, size) and uses caching to improve performance."

/-- The fixed default/help template returned when no category matches. -/
def defaultTemplate : String :=
  "I can help you with:<br><br>\n            • <strong>Current Status:</strong> \"What is my CPU usage?\", \"Show memory usage\"<br>\n            • <strong>Process Info:</strong> \"Which processes are using most resources?\"<br>\n            • <strong>OS Concepts:</strong> \"Explain virtual memory\", \"What is process scheduling?\"<br>\n            • <strong>Optimization:</strong> \"How can I improve performance?\"<br><br>\n            Try asking about CPU, memory, processes, disk I/O, networking, or OS theory concepts!"

/-- The CPU category of `generateResponse`: `some` when one of its branches
returns, `none` when control falls through to the next category. -/
def cpuResponse (lm : List Char) (m : Metrics) : Option String :=
  if incl lm "cpu" || incl lm "processor" then
    if incl lm "usage" || incl lm "current" then some (cpuStatusTemplate m)
    else if incl lm "explain" || incl lm "what is" then some (cpuTheoryTemplate m)
    else none
  else none

/-- The memory category of `generateResponse`. -/
def memoryResponse (lm : List Char) (m : Metrics) : Option String :=
  if incl lm "memory" || incl lm "ram" then
    if incl lm "usage" || incl lm "current" || incl lm "show" then
      some (memoryStatusTemplate m)
    else if incl lm "virtual" || incl lm "explain" then some memoryTheoryTemplate
    else none
  else none

/-- The process category of `generateResponse`. -/
def processResponse (lm : List Char) (m : Metrics) : Option String :=
  if incl lm "process" || incl lm "application" || incl lm "top" then
    if incl lm "using" || incl lm "consuming" || incl lm "most" then
      some (processTopTemplate m)
    else if incl lm "explain" || incl lm "what is" then some (processTheoryTemplate m)
    else none
  else none

/-- The disk category of `generateResponse` (keyword-only, no secondary). -/
def diskResponse (lm : List Char) (m : Metrics) : Option String :=
  if incl lm "disk" || incl lm "i/o" || incl lm "storage" then some (diskTemplate m)
  else none

/-- The network category of `generateResponse`. -/
def networkResponse (lm : List Char) (m : Metrics) : Option String :=
  if incl lm "network" || incl lm "internet" then some (networkTemplate m)
  else none

/-- The optimization category of `generateResponse`. -/
def optimizeResponse (lm : List Char) (m : Metrics) : Option String :=
  if incl lm "optimize" || incl lm "improve" || incl lm "recommend" then
    some (optimizeTemplate m)
  else none

/-- The scheduling category of `generateResponse`. -/
def schedulingResponse (lm : List Char) : Option String :=
  if incl lm "schedul" || incl lm "algorithm" then some schedulingTemplate
  else none

/-- The deadlock category of `generateResponse`. -/
def deadlockResponse (lm : List Char) : Option String :=
  if incl lm "deadlock" then some deadlockTemplate
  else none

/-- The file-system category of `generateResponse`. -/
def fileSystemResponse (lm : List Char) : Option String :=
  if incl lm "file system" || incl lm "filesystem" then some fileSystemTemplate
  else none

/-- Evaluation of `generateResponse` from the memory category onward, ending
in the default template; mirrors the early-return chain after the CPU block. -/
def responseAfterCpu (lm : List Char) (m : Metrics) : String :=
  match memoryResponse lm m with
  | some r => r
  | none =>
    match processResponse lm m with
    | some r => r
    | none =>
      match diskResponse lm m with
      | some r => r
      | none =>
        match networkResponse lm m with
        | some r => r
        | none =>
          match optimizeResponse lm m with
          | some r => r
          | none =>
            match schedulingResponse lm with
            | some r => r
            | none =>
              match deadlockResponse lm with
              | some r => r
              | none =>
                match fileSystemResponse lm with
                | some r => r
                | none => defaultTemplate

/-- `ChatController.generateResponse(userMessage)` against a snapshot. -/
def generateResponse (userMessage : String) (m : Metrics) : String :=
  let lm := lowerChars userMessage
  match cpuResponse lm m with
  | some r => r
  | none => responseAfterCpu lm m

/-- The invariant maintained by the bounded random walks of `updateMetrics`. -/
def BoundsInv (m : Metrics) : Prop :=
  (5 ≤ m.cpu.usage ∧ m.cpu.usage ≤ 95) ∧ (2 ≤ m.memory.used ∧ m.memory.used ≤ 14) ∧
    m.memory.available = m.memory.total - m.memory.used

/-- The single-draw threshold mapping asserted by the claim for the load tag.
Stated from the spec words, for comparison against the source (`mkProcess`). -/
def specLoadTag (d : ℚ) : String :=
  if d > 0.8 then "high" else if d > 0.5 then "medium" else "low"

/-- Draw record exercised by the load-tag analysis: the first status draw is
`0.6` (below the `high` threshold), the second is `0.3`. -/
def c6Draws : ProcessDraws :=
  { pidDraw := 0, cpuDraw := 0, memDraw := 0, statusDraw1 := 0.6,
    statusDraw2 := 0.3, stateDraw := 0 }

/-- Constant per-process draw source built from `c6Draws`. -/
def c6ProcDraws : ℕ → ProcessDraws :=
  fun _ => c6Draws

/-- A snapshot with both thresholds crossed (cpu 90 > 85; memory 15/16 of
total, 93.75% > 85). -/
def highMetrics : Metrics :=
  { cpu := { usage := 90, cores := 8, frequency := 3.5 }
    memory := { used := 15, total := 16, available := 1 }
    disk := { read := 0, write := 0, usage := 45 }
    network := { sent := 0, received := 0 }
    processes := [] }

/-- The snapshot of the C8 golden-output test: cpu usage 72.3%, 8 cores,
3.5 GHz. -/
def c8Metrics : Metrics :=
  { cpu := { usage := 72.3, cores := 8, frequency := 3.5 }
    memory := { used := 8.5, total := 16, available := 7.5 }
    disk := { read := 0, write := 0, usage := 45 }
    network := { sent := 0, received := 0 }
    processes := [] }

/-- A configuration that the claimed validation would have to refuse:
`totalGB = 0`. -/
def invalidConfig : Config :=
  { CONFIG with system := { CONFIG.system with totalMemory := 0 } }

/-- Per-process draws forcing a pid collision: every pid draw is `0`, so every
entry gets pid `1000`, while the cpu draws `i / 20` are pairwise distinct. -/
def collisionProcDraws : ℕ → ProcessDraws :=
  fun i =>
    { pidDraw := 0, cpuDraw := (i : ℚ) / 20, memDraw := 0, statusDraw1 := 0,
      statusDraw2 := 0, stateDraw := 0 }

/-- One tick of draws realising the pid collision. -/
def collisionTick : TickDraws :=
  { cpuDraw := 0.5, memDraw := 0.5, diskReadDraw := 0, diskWriteDraw := 0,
    netSentDraw := 0, netRecvDraw := 0, procDraws := collisionProcDraws }

/-- The snapshot after one collision tick from the seed state. -/
def collisionMetrics : Metrics :=
  updateMetrics CONFIG (initialMetrics CONFIG) collisionTick

/-- The table entry with the greatest cpu among the colliding pids: catalog
index 14 (`system`), cpu `14 / 20 * 25 = 17.5`. -/
def collisionTop : ProcessInfo :=
  mkProcess "system" (collisionProcDraws 14)

/-- A process entry used to exercise `getProcessByPID` on a present pid. -/
def sampleProcess : ProcessInfo :=
  { name := "node.exe", pid := 1234, cpu := 12, memory := 256,
    status := "low", state := "running" }

/-- A snapshot whose table holds exactly `sampleProcess`. -/
def sampleMetrics : Metrics :=
  { cpu := { usage := 35, cores := 8, frequency := 3.5 }
    memory := { used := 8.5, total := 16, available := 7.5 }
    disk := { read := 0, write := 0, usage := 45 }
    network := { sent := 0, received := 0 }
    processes := [sampleProcess] }

/-- A tick-draw record with every draw at `0.5`, for witnesses. -/
def halfTick : TickDraws :=
  { cpuDraw := 0.5, memDraw := 0.5, diskReadDraw := 0.5, diskWriteDraw := 0.5,
    netSentDraw := 0.5, netRecvDraw := 0.5, procDraws := c6ProcDraws }

set_option maxRecDepth 100000

theorem boundsInv_initial (cfg : Config) : BoundsInv (initialMetrics cfg) := by
  unfold BoundsInv initialMetrics
  norm_num

theorem boundsInv_updateMetrics (cfg : Config) (m : Metrics) (d : TickDraws) :
    BoundsInv (updateMetrics cfg m d) := by
  unfold BoundsInv updateMetrics
  exact ⟨⟨le_max_left _ _, max_le (by norm_num) (min_le_left _ _)⟩,
    ⟨le_max_left _ _, max_le (by norm_num) (min_le_left _ _)⟩, rfl⟩

theorem boundsInv_runTicks (cfg : Config) :
    ∀ (ds : List TickDraws) (m : Metrics), BoundsInv m → BoundsInv (runTicks cfg m ds)
  | [], _, h => h
  | d :: ds, m, _ => boundsInv_runTicks cfg ds _ (boundsInv_updateMetrics cfg m d)

/-- Claim C1: for every number of `tick()` calls from the documented seed
state and every possible sequence of random draws, the snapshot keeps
`cpu.usage ∈ [5, 95]`, `memory.used ∈ [2, 14]`, and
`memory.available = memory.total - memory.used` exactly. -/
theorem ticks_keep_documented_bounds (cfg : Config) (ds : List TickDraws) :
    5 ≤ (runTicks cfg (initialMetrics cfg) ds).cpu.usage ∧
    (runTicks cfg (initialMetrics cfg) ds).cpu.usage ≤ 95 ∧
    2 ≤ (runTicks cfg (initialMetrics cfg) ds).memory.used ∧
    (runTicks cfg (initialMetrics cfg) ds).memory.used ≤ 14 ∧
    (runTicks cfg (initialMetrics cfg) ds).memory.available =
      (runTicks cfg (initialMetrics cfg) ds).memory.total -
        (runTicks cfg (initialMetrics cfg) ds).memory.used := by
  have h := boundsInv_runTicks cfg ds (initialMetrics cfg) (boundsInv_initial cfg)
  exact ⟨h.1.1, h.1.2, h.2.1.1, h.2.1.2, h.2.2⟩

/-- Claim C2: `checkAlerts` returns exactly one cpu alert iff
`cpu.usage > ALERT_THRESHOLD_CPU` (85 in the shipped config), independent of
the memory state, exactly one memory alert iff
`(memory.used / memory.total) * 100 > ALERT_THRESHOLD_MEMORY`, independent of
the cpu state; when both fire the cpu alert comes first, and the list never
has more than two elements. -/
theorem checkAlerts_exactly (cfg : Config) (m : Metrics) :
    ((checkAlerts cfg m).countP (fun a => a.type == "cpu") =
      if cfg.monitoring.alertThresholdCpu < m.cpu.usage then 1 else 0) ∧
    ((checkAlerts cfg m).countP (fun a => a.type == "memory") =
      if cfg.monitoring.alertThresholdMemory < (m.memory.used / m.memory.total) * 100
        then 1 else 0) ∧
    (cfg.monitoring.alertThresholdCpu < m.cpu.usage →
      cfg.monitoring.alertThresholdMemory < (m.memory.used / m.memory.total) * 100 →
      checkAlerts cfg m = [cpuAlert, memoryAlert]) ∧
    (checkAlerts cfg m).length ≤ 2 := by
  unfold checkAlerts
  by_cases h1 : m.cpu.usage > cfg.monitoring.alertThresholdCpu <;>
    by_cases h2 : (m.memory.used / m.memory.total) * 100 > cfg.monitoring.alertThresholdMemory <;>
    simp [h1, h2, cpuAlert, memoryAlert]

/-- Witness for C2: with cpu usage 90 and memory 15/16 both thresholds of the
shipped configuration are crossed and both alerts fire, cpu first. -/
theorem checkAlerts_exactly_witness :
    checkAlerts CONFIG highMetrics = [cpuAlert, memoryAlert] :=
  (checkAlerts_exactly CONFIG highMetrics).2.2.1 (by with_unfolding_all decide)
    (by with_unfolding_all decide)

/-- Claim C3: a query whose lowercase form contains "cpu" or "processor" but
none of the secondary keywords "usage", "current", "explain", "what is" does
not return from the CPU category: the answer is exactly the evaluation of the
later categories in priority order, and when none of them matches either, the
default template. -/
theorem cpu_category_fallthrough (q : String) (m : Metrics)
    (hcpu : incl (lowerChars q) "cpu" = true ∨ incl (lowerChars q) "processor" = true)
    (h1 : incl (lowerChars q) "usage" = false)
    (h2 : incl (lowerChars q) "current" = false)
    (h3 : incl (lowerChars q) "explain" = false)
    (h4 : incl (lowerChars q) "what is" = false) :
    generateResponse q m = responseAfterCpu (lowerChars q) m ∧
    (memoryResponse (lowerChars q) m = none → processResponse (lowerChars q) m = none →
      diskResponse (lowerChars q) m = none → networkResponse (lowerChars q) m = none →
      optimizeResponse (lowerChars q) m = none → schedulingResponse (lowerChars q) = none →
      deadlockResponse (lowerChars q) = none → fileSystemResponse (lowerChars q) = none →
      generateResponse q m = defaultTemplate) := by
  have hnone : cpuResponse (lowerChars q) m = none := by
    unfold cpuResponse
    rcases hcpu with h | h <;> simp [h, h1, h2, h3, h4]
  have hmain : generateResponse q m = responseAfterCpu (lowerChars q) m := by
    simp only [generateResponse, hnone]
  refine ⟨hmain, fun m1 m2 m3 m4 m5 m6 m7 m8 => ?_⟩
  rw [hmain]
  unfold responseAfterCpu
  rw [m1, m2, m3, m4, m5, m6, m7, m8]

/-- Witness for C3: the bare query "cpu" matches no secondary keyword and no
later category, so it yields the default template. -/
theorem cpu_category_fallthrough_witness :
    generateResponse "cpu" (initialMetrics CONFIG) = defaultTemplate :=
  (cpu_category_fallthrough "cpu" (initialMetrics CONFIG) (Or.inl rfl) rfl rfl rfl rfl).2
    rfl rfl rfl rfl rfl rfl rfl rfl

/-- Claim C4: `generateResponse` is total (it is a Lean function into
`String`), and on the empty query it returns exactly the default/help
template, for every snapshot. -/
theorem respond_empty_is_default (m : Metrics) :
    generateResponse "" m = defaultTemplate := rfl

theorem length_processes_updateMetrics (cfg : Config) (m : Metrics) (d : TickDraws) :
    (updateMetrics cfg m d).processes.length =
      min cfg.processNames.length cfg.monitoring.maxProcessesDisplay := by
  show (generateProcesses cfg d.procDraws).length = _
  unfold generateProcesses
  rw [List.length_take, List.length_insertionSort, List.length_map, List.enum_length,
    Nat.min_comm]

/-- Claim C5: after every tick, for every sequence of draws, the process
table is sorted descending by cpu and its length is
`min(catalog size, MAX_PROCESSES_DISPLAY)`; with the shipped configuration,
`min(15, 8) = 8`. -/
theorem processes_sorted_desc_and_len (cfg : Config) (m : Metrics) (d : TickDraws) :
    List.Pairwise cpuOrder (updateMetrics cfg m d).processes ∧
    (updateMetrics cfg m d).processes.length =
      min cfg.processNames.length cfg.monitoring.maxProcessesDisplay ∧
    (updateMetrics CONFIG m d).processes.length = 8 := by
  refine ⟨?_, ?_, ?_⟩
  · show List.Pairwise cpuOrder (generateProcesses cfg d.procDraws)
    unfold generateProcesses
    exact List.Pairwise.sublist (List.take_sublist _ _)
      (List.sorted_insertionSort cpuOrder _)
  · exact length_processes_updateMetrics cfg m d
  · rw [length_processes_updateMetrics CONFIG m d]
    decide

theorem mem_generateProcesses {cfg : Config} {pd : ℕ → ProcessDraws} {p : ProcessInfo}
    (hp : p ∈ generateProcesses cfg pd) :
    ∃ i name, cfg.processNames[i]? = some name ∧ p = mkProcess name (pd i) := by
  unfold generateProcesses at hp
  have h1 := (List.perm_insertionSort cpuOrder _).mem_iff.mp (List.mem_of_mem_take hp)
  rcases List.mem_map.mp h1 with ⟨q, hq, rfl⟩
  exact ⟨q.1, q.2, by simpa using List.mem_enum_iff_getElem?.mp hq, rfl⟩

/-- Claim C6 (amended): the status tag of every generated table entry is
threshold-mapped from up to two independent draws of its own draw record:
"high" when the first draw exceeds 0.8, otherwise "medium" when the second
draw exceeds 0.5, otherwise "low" (probability mass 0.2 / 0.4 / 0.4). -/
theorem loadTag_from_two_draws (cfg : Config) (pd : ℕ → ProcessDraws)
    (p : ProcessInfo) (hp : p ∈ generateProcesses cfg pd) :
    ∃ i, (cfg.processNames[i]?).isSome ∧
      p.status = if (pd i).statusDraw1 > 0.8 then "high"
        else if (pd i).statusDraw2 > 0.5 then "medium" else "low" := by
  rcases mem_generateProcesses hp with ⟨i, name, hname, rfl⟩
  exact ⟨i, by simp [hname], rfl⟩

/-- Witness for the amended C6, at the constant draw source `c6ProcDraws`. -/
theorem loadTag_from_two_draws_witness :
    ∃ i, (CONFIG.processNames[i]?).isSome ∧
      (mkProcess "chrome.exe" c6Draws).status =
        if (c6ProcDraws i).statusDraw1 > 0.8 then "high"
        else if (c6ProcDraws i).statusDraw2 > 0.5 then "medium" else "low" :=
  loadTag_from_two_draws CONFIG c6ProcDraws (mkProcess "chrome.exe" c6Draws)
    (by with_unfolding_all decide)

/-- Counterexample to C6 as stated: with first status draw 0.6 and second
status draw 0.3 the code produces "low", while the claimed single-draw
threshold mapping of the draw 0.6 yields "medium". -/
theorem loadTag_single_draw_refuted :
    (mkProcess "chrome.exe" c6Draws).status = "low" ∧
    specLoadTag c6Draws.statusDraw1 = "medium" ∧
    (mkProcess "chrome.exe" c6Draws).status ≠ specLoadTag c6Draws.statusDraw1 := by
  with_unfolding_all decide

/-- Counterexample to C7 as stated: `totalGB = 0` is an invalid configuration
by the claim, yet construction still produces a simulator instance. -/
theorem constructor_no_validation :
    invalidConfig.system.totalMemory ≤ 0 ∧ (mkSystemMonitor invalidConfig).isSome = true := by
  with_unfolding_all decide

/-- Claim C7 (amended): the constructor performs no configuration validation
and never fails: for every configuration, including zero or negative
`totalGB`, `coreCount` or thresholds, it produces the seeded instance. -/
theorem constructor_always_succeeds (cfg : Config) :
    mkSystemMonitor cfg = some (initialMetrics cfg) := rfl

/-- Claim C8: for the snapshot with cpu usage 72.3, 8 cores and 3.5 GHz, the
query "What is my current CPU usage?" yields a response containing "72.3%",
"8 logical processors", "3.5 GHz" and the high-usage clause (72.3 > 70). -/
theorem cpu_usage_golden_output :
    strContains (generateResponse "What is my current CPU usage?" c8Metrics) "72.3%" = true ∧
    strContains (generateResponse "What is my current CPU usage?" c8Metrics)
      "8 logical processors" = true ∧
    strContains (generateResponse "What is my current CPU usage?" c8Metrics) "3.5 GHz" = true ∧
    strContains (generateResponse "What is my current CPU usage?" c8Metrics)
      "⚠️ CPU usage is high. " = true := by
  with_unfolding_all decide

/-- Claim C9: `getProcessByPID` returns `none` exactly when no entry carries
the pid; any returned entry carries the requested pid and belongs to the
table; and when some entry carries the pid, a matching entry is returned.
The operation is a pure function of the snapshot. -/
theorem lookupProcess_found_or_notFound (m : Metrics) (pid : ℤ) :
    (getProcessByPID m pid = none ↔ ∀ p ∈ m.processes, p.pid ≠ pid) ∧
    (∀ p, getProcessByPID m pid = some p → p.pid = pid ∧ p ∈ m.processes) ∧
    ((∃ p ∈ m.processes, p.pid = pid) →
      ∃ q, getProcessByPID m pid = some q ∧ q.pid = pid) := by
  have hsome : ∀ p, getProcessByPID m pid = some p → p.pid = pid ∧ p ∈ m.processes := by
    intro p hp
    exact ⟨by simpa using List.find?_some hp, List.mem_of_find?_eq_some hp⟩
  have hnone : getProcessByPID m pid = none ↔ ∀ p ∈ m.processes, p.pid ≠ pid := by
    unfold getProcessByPID
    rw [List.find?_eq_none]
    constructor
    · intro h p hp
      simpa using h p hp
    · intro h p hp
      simpa using h p hp
  refine ⟨hnone, hsome, fun hex => ?_⟩
  rcases hfind : getProcessByPID m pid with _ | q
  · rcases hex with ⟨p, hp, hpid⟩
    exact absurd hpid (hnone.mp hfind p hp)
  · exact ⟨q, rfl, (hsome q hfind).1⟩

/-- Witness for C9: in a table holding exactly `sampleProcess` (pid 1234),
looking up 1234 returns that entry. -/
theorem lookupProcess_witness :
    sampleProcess.pid = 1234 ∧ sampleProcess ∈ sampleMetrics.processes :=
  (lookupProcess_found_or_notFound sampleMetrics 1234).2.1 sampleProcess
    (by with_unfolding_all decide)

/-- Claim C10: every pid is drawn in [1000, 9999] when the draw lies in
[0, 1); pids are not guaranteed unique: after the collision tick every entry
has pid 1000 (two distinct positions share it), and `getProcessByPID 1000`
returns the first entry of the table, which has the greatest cpu among the
sharing entries. -/
theorem pid_range_and_collision :
    (∀ (name : String) (d : ProcessDraws), 0 ≤ d.pidDraw → d.pidDraw < 1 →
      1000 ≤ (mkProcess name d).pid ∧ (mkProcess name d).pid ≤ 9999) ∧
    ((collisionMetrics.processes.get? 0).map (fun p => p.pid) = some 1000 ∧
      (collisionMetrics.processes.get? 1).map (fun p => p.pid) = some 1000 ∧
      collisionMetrics.processes.head? = some collisionTop ∧
      getProcessByPID collisionMetrics 1000 = some collisionTop ∧
      ∀ p ∈ collisionMetrics.processes, p.pid = 1000 ∧ p.cpu ≤ collisionTop.cpu) := by
  constructor
  · intro name d h0 h1
    show 1000 ≤ 1000 + ⌊d.pidDraw * 9000⌋ ∧ 1000 + ⌊d.pidDraw * 9000⌋ ≤ 9999
    have hlow : (0 : ℤ) ≤ ⌊d.pidDraw * 9000⌋ :=
      Int.floor_nonneg.mpr (mul_nonneg h0 (by norm_num))
    have hhigh : ⌊d.pidDraw * 9000⌋ < 9000 := by
      apply Int.floor_lt.mpr
      push_cast
      nlinarith
    omega
  · with_unfolding_all decide

/-- Witness for C10's range part, at the zero pid draw. -/
theorem pid_range_and_collision_witness :
    1000 ≤ (mkProcess "chrome.exe" c6Draws).pid ∧ (mkProcess "chrome.exe" c6Draws).pid ≤ 9999 :=
  pid_range_and_collision.1 "chrome.exe" c6Draws (by with_unfolding_all decide)
    (by with_unfolding_all decide)

end OsMon
